import Mathlib

/-!
Verification of the elan_data repository (revision under src/) against its
natural-language specification.

The development shallowly embeds the Python modules `elan_data/__init__.py`
(class ELAN_Data) and `elan_data/tiers.py` (TierType, Tier, Subtier,
Segmentations).  Python exceptions are modelled by the `PyErr` type and
fallible code returns `Except PyErr _`.  The pandas DataFrame held by the
Segmentations store is modelled by `DataFrame` (a list of column labels plus
a list of rows of scalar cells); only the pandas behaviours the source
actually exercises are modelled, each one noted where it is used.  Python
`set`s of strings (hashable) are modelled as lists deduplicated by
structural equality via `setAdd`; the TierType/Tier/Subtier dataclasses,
however, are declared with eq=True and frozen=False, which sets their
`__hash__` to None, so `set.add` / `set.remove` / a non-empty `set.update`
of such instances raises `TypeError: unhashable type` — modelled by
`pySetAddUnhashable`, `pySetRemoveUnhashable` and `pySetUpdateUnhashable`.
Python `dict`s (string-keyed) are association lists in insertion order.  File input is modelled as the already
parsed `XML` tree (reading bytes and XML text parsing are outside the scope
of the claims).  Machine-integer width (numpy int32) is not modelled: every
claim only involves magnitudes far below 2^31, where Python/numpy arithmetic
agrees with `Int`.
-/

/-- Kinds of Python exceptions raised by the modelled code.  `valueError`
covers the spec's InvalidArgument/FormatError uses of ValueError,
`typeError` its TypeError, and `exception` the bare `Exception` raised by
`Segmentations.remove_segment`. -/
inductive PyErr where
  | typeError
  | valueError
  | keyError
  | attributeError
  | assertionError
  | exception
deriving DecidableEq, Repr

/-- A scalar held in one DataFrame cell: Python str or int.  `nan` is the
float NaN that pandas produces for the max of an empty column. -/
inductive Cell where
  | str (s : String)
  | int (n : Int)
  | nan
deriving DecidableEq, Repr

/-- Python str() / f-string formatting of a cell value. -/
def cellFormat : Cell → String
  | .str s => s
  | .int n => toString n
  | .nan => "nan"

/-- Python `set.add` on a set modelled as a duplicate-free list: structural
(dataclass) equality, insertion order kept. -/
def setAdd {α : Type} [DecidableEq α] (l : List α) (a : α) : List α :=
  if a ∈ l then l else l ++ [a]

/-- Python `set.add` of a TierType/Tier/Subtier instance.  These classes
are `@dataclass` with eq=True and frozen=False, which sets `__hash__` to
None, so adding an instance to a set raises TypeError: unhashable type. -/
def pySetAddUnhashable {α : Type} (_s : List α) (_a : α) : Except PyErr (List α) :=
  .error .typeError

/-- Python `set.remove` of such an unhashable instance: the removal hashes
its argument first and raises TypeError just like `set.add`. -/
def pySetRemoveUnhashable {α : Type} (_s : List α) (_a : α) : Except PyErr (List α) :=
  .error .typeError

/-- Python `set.update(iterable)` over such unhashable instances: update
hashes each element, so any non-empty iterable raises TypeError while the
empty update touches nothing. -/
def pySetUpdateUnhashable {α : Type} (s : List α) : List α → Except PyErr (List α)
  | [] => .ok s
  | _ :: _ => .error .typeError

/-- Python `d[k]` on a dict modelled as an association list: KeyError when
the key is absent. -/
def dictGet {β : Type} (d : List (String × β)) (k : String) : Except PyErr β :=
  match d.lookup k with
  | some v => .ok v
  | none => .error .keyError

/-- Python `d[k] = v` (replace or append). -/
def dictSet {β : Type} (d : List (String × β)) (k : String) (v : β) :
    List (String × β) :=
  if (d.lookup k).isSome then
    d.map (fun p => if p.1 = k then (k, v) else p)
  else
    d ++ [(k, v)]

/-- Python `d[k].extend(vs)`: looks the key up first, so it raises KeyError
when the dict was never given that key. -/
def dictExtend (d : List (String × List Cell)) (k : String) (vs : List Cell) :
    Except PyErr (List (String × List Cell)) :=
  match d.lookup k with
  | some old => .ok (dictSet d k (old ++ vs))
  | none => .error .keyError

/-- Digit value of a character, when it is one. -/
def charDigit (c : Char) : Option Nat :=
  if '0' ≤ c ∧ c ≤ '9' then some (c.toNat - 48) else none

/-- Accumulate decimal digits; any non-digit fails. -/
def parseDigitsAux : List Char → Nat → Option Nat
  | [], acc => some acc
  | c :: rest, acc =>
      match charDigit c with
      | some d => parseDigitsAux rest (acc * 10 + d)
      | none => none

/-- A non-empty run of decimal digits as a number. -/
def parseDigits : List Char → Option Nat
  | [] => none
  | l => parseDigitsAux l 0

/-- Python `int(s)` on a string — an optional sign and decimal digits —
with ValueError when it does not parse.  (Python also tolerates
surrounding whitespace and underscores; no modelled input carries
either.) -/
def pyInt (s : String) : Except PyErr Int :=
  match s.data with
  | '-' :: rest =>
      match parseDigits rest with
      | some n => .ok (-(n : Int))
      | none => .error .valueError
  | l =>
      match parseDigits l with
      | some n => .ok ((n : Int))
      | none => .error .valueError

-- ===================== XML model (xml.etree.ElementTree) =====================

/-- An XML element: tag name, attribute dict, text node, child elements. -/
inductive XML where
  | elem (tag : String) (attrib : List (String × String)) (text : Option String)
      (children : List XML)

/-- Tag name of an element (`Element.tag`). -/
def XML.tagName : XML → String
  | .elem t _ _ _ => t

/-- Attribute dict of an element (`Element.attrib`). -/
def XML.attrDict : XML → List (String × String)
  | .elem _ a _ _ => a

/-- Text content of an element (`Element.text`). -/
def XML.textOf : XML → Option String
  | .elem _ _ x _ => x

/-- Child elements of an element. -/
def XML.children : XML → List XML
  | .elem _ _ _ cs => cs

/-- One attribute, as `Element.attrib.get(k)`. -/
def XML.attr (e : XML) (k : String) : Option String :=
  e.attrDict.lookup k

/-- Python `element.attrib[k]`: KeyError when absent. -/
def pyAttrib (e : XML) (k : String) : Except PyErr String :=
  match e.attr k with
  | some v => .ok v
  | none => .error .keyError

mutual

/-- All proper descendants of an element in document (preorder) order;
this is what the `.//` steps of the ElementTree paths used by the source
range over. -/
def XML.allDesc : XML → List XML
  | .elem _ _ _ cs => XML.allDescList cs

/-- Descendants of a forest of elements, each element before its own
descendants. -/
def XML.allDescList : List XML → List XML
  | [] => []
  | c :: cs => c :: (XML.allDesc c ++ XML.allDescList cs)

end

/-- `tree.findall(".//TAG")`: all descendants with the given tag. -/
def findallTag (root : XML) (t : String) : List XML :=
  root.allDesc.filter (fun e => e.tagName == t)

/-- `tree.find(".//*[@K='v']")`: first descendant carrying attribute K = v. -/
def findAttrEq (root : XML) (k v : String) : Option XML :=
  root.allDesc.find? (fun e => e.attr k == some v)

/-- `tree.findall(".//*[@K='v']//TAG")`: descendants named TAG of any
descendant carrying attribute K = v, in document order. -/
def findallAttrThenTag (root : XML) (k v tag : String) : List XML :=
  ((root.allDesc.filter (fun e => e.attr k == some v)).map
    (fun e => findallTag e tag)).flatten

/-- `tree.find(".//*[@TIER_ID=tier]//*[@ANNOTATION_ID=id]/TAG")`: first
child named TAG of a descendant with the given ANNOTATION_ID below a
descendant with the given TIER_ID. -/
def findTierAnnChild (root : XML) (tier idv tag : String) : Option XML :=
  (((root.allDesc.filter (fun e => e.attr "TIER_ID" == some tier)).map
      (fun e => e.allDesc.filter (fun x => x.attr "ANNOTATION_ID" == some idv))).flatten.map
    (fun e => e.children.filter (fun c => c.tagName == tag))).flatten.head?

/-- Direct child with a given tag (`element.find("./TAG")`). -/
def findChildTag (e : XML) (t : String) : Option XML :=
  e.children.find? (fun c => c.tagName == t)

/-- Remove the first child with a given tag (`parent.remove(old)` where
`old` was found by tag). -/
def removeFirstTag : List XML → String → List XML
  | [], _ => []
  | c :: rest, t => if c.tagName = t then rest else c :: removeFirstTag rest t

/-- Replace the first child with a given tag by a new element (used to model
the in-place mutation of the HEADER element). -/
def replaceFirstTag : List XML → String → XML → List XML
  | [], _, _ => []
  | c :: rest, t, n => if c.tagName = t then n :: rest else c :: replaceFirstTag rest t n

-- ===================== TierType (tiers.py) =====================

/-- tiers.py, class TierType: name (LINGUISTIC_TYPE_ID) and stereotype
(CONSTRAINTS).  The `time_alignable` dataclass field keeps its class default
True in every instance the source builds (neither `__init__` nor `from_xml`
assigns it). -/
structure TierType where
  name : String
  stereotype : String
  time_alignable : Bool := true
deriving DecidableEq, Repr

/-- tiers.py, `TierType.from_xml`: requires a LINGUISTIC_TYPE tag
(ValueError otherwise), reads LINGUISTIC_TYPE_ID (KeyError when absent),
and takes CONSTRAINTS as the stereotype when present — via `typing.cast`,
so without validating it against the STEREOTYPE enum. -/
def TierType.from_xml (tag : XML) : Except PyErr TierType :=
  if tag.tagName ≠ "LINGUISTIC_TYPE" then .error .valueError
  else
    match tag.attr "LINGUISTIC_TYPE_ID" with
    | none => .error .keyError
    | some n => .ok { name := n, stereotype := (tag.attr "CONSTRAINTS").getD "None" }

/-- tiers.py, `TierType.as_xml`: the exhaustive stereotype-to-attributes
projection (None: time-alignable without CONSTRAINTS; Time_Subdivision:
time-alignable with CONSTRAINTS; everything else: not time-alignable, with
CONSTRAINTS). -/
def TierType.as_xml (t : TierType) : XML :=
  XML.elem "LINGUISTIC_TYPE"
    ([("GRAPHIC_REFERENCES", "false"), ("LINGUISTIC_TYPE_ID", t.name)] ++
      (if t.stereotype = "None" then [("TIME_ALIGNABLE", "true")]
       else if t.stereotype = "Time_Subdivision" then
         [("TIME_ALIGNABLE", "true"), ("CONSTRAINTS", t.stereotype)]
       else
         [("TIME_ALIGNABLE", "false"), ("CONSTRAINTS", t.stereotype)]))
    none []

-- ===================== Tier / Subtier (tiers.py) =====================

/-- tiers.py, class Tier: named annotation track with participant/annotator
metadata and a shared TierType reference. -/
structure Tier where
  name : String
  participant : String := ""
  annotator : String := ""
  tier_type : TierType
deriving DecidableEq, Repr

/-- The default linguistic type (`TierType()`). -/
def defaultTierType : TierType :=
  { name := "default-lt", stereotype := "None" }

/-- `Tier(name=n)` with all remaining dataclass defaults. -/
def defaultTier (n : String) : Tier :=
  { name := n, tier_type := defaultTierType }

/-- A parsed tier-or-subtier value as stored in the `tier_names` dict of
`ELAN_Data._extract_tiers` (Union[Tier, Subtier]); a subtier holds its
already-constructed parent object. -/
inductive TierObj where
  | root (t : Tier)
  | sub (t : Tier) (parent : TierObj)
deriving DecidableEq, Repr

/-- Name of a tier-or-subtier object. -/
def TierObj.name : TierObj → String
  | .root t => t.name
  | .sub t _ => t.name

/-- tiers.py, class Subtier: a Tier that also references a parent
Tier-or-Subtier object. -/
structure Subtier where
  toTier : Tier
  parent : TierObj
deriving DecidableEq, Repr

/-- View a subtier as a `tier_names` dict entry. -/
def Subtier.toObj (s : Subtier) : TierObj :=
  .sub s.toTier s.parent

/-- tiers.py, `Tier.from_xml`: requires a TIER tag (ValueError), rejects a
tag with PARENT_REF (TypeError: subtier tag), reads TIER_ID (KeyError when
absent) and the optional PARTICIPANT/ANNOTATOR attributes.  The source also
accepts a LINGUISTIC_TYPE element for `tier_type`; every call site in the
claims passes a TierType object, which is what is modelled. -/
def Tier.from_xml (tag : XML) (tier_type : TierType) : Except PyErr Tier :=
  if tag.tagName ≠ "TIER" then .error .valueError
  else if (tag.attr "PARENT_REF").isSome then .error .typeError
  else
    match tag.attr "TIER_ID" with
    | none => .error .keyError
    | some n =>
        .ok { name := n,
              participant := (tag.attr "PARTICIPANT").getD "",
              annotator := (tag.attr "ANNOTATOR").getD "",
              tier_type := tier_type }

/-- tiers.py, `Subtier.from_xml`: symmetric to `Tier.from_xml` — fails with
TypeError when the tag does NOT carry PARENT_REF; the parent is the
out-of-band, already-constructed object passed through kwargs. -/
def Subtier.from_xml (tag : XML) (tier_type : TierType) (parent : TierObj) :
    Except PyErr Subtier :=
  if tag.tagName ≠ "TIER" then .error .valueError
  else if (tag.attr "PARENT_REF").isNone then .error .typeError
  else
    match tag.attr "TIER_ID" with
    | none => .error .keyError
    | some n =>
        .ok ⟨{ name := n,
               participant := (tag.attr "PARTICIPANT").getD "",
               annotator := (tag.attr "ANNOTATOR").getD "",
               tier_type := tier_type }, parent⟩

/-- tiers.py, `Tier.as_xml`: TIER element with LINGUISTIC_TYPE_REF and
TIER_ID; PARTICIPANT/ANNOTATOR only when non-empty (omission encodes
absence). -/
def Tier.as_xml (t : Tier) : XML :=
  XML.elem "TIER"
    ([("LINGUISTIC_TYPE_REF", t.tier_type.name), ("TIER_ID", t.name)] ++
      (if t.participant ≠ "" then [("PARTICIPANT", t.participant)] else []) ++
      (if t.annotator ≠ "" then [("ANNOTATOR", t.annotator)] else []))
    none []

/-- tiers.py, `Subtier.as_xml`: the Tier projection plus PARENT_REF. -/
def Subtier.as_xml (s : Subtier) : XML :=
  XML.elem "TIER" (s.toTier.as_xml.attrDict ++ [("PARENT_REF", s.parent.name)]) none []

example : (TierType.from_xml (TierType.as_xml defaultTierType)) = .ok defaultTierType := rfl

-- ===================== DataFrame model (pandas, as used) =====================

/-- The pandas DataFrame held by the Segmentations store: column labels plus
rows of scalar cells, every row aligned with `columns`. -/
structure DataFrame where
  columns : List String
  rows : List (List Cell)
deriving DecidableEq, Repr

/-- The six store columns (`Segmentations.COLUMNS`, in the order the
constructor lays them out). -/
def SEG_COLUMNS : List String :=
  ["TIER", "START", "END", "TEXT", "ID", "DURATION"]

/-- Attribute access `df.C`: the column's cells when C is a column label,
AttributeError otherwise (pandas resolves unknown attributes through the
column index first). -/
def dfAttrColumn (df : DataFrame) (c : String) : Except PyErr (List Cell) :=
  match df.columns.findIdx? (· == c) with
  | some i => .ok (df.rows.map (fun r => r.getD i (.str "")))
  | none => .error .attributeError

/-- Rows of `df[df.C == form]` given the column's cells (pandas boolean-mask
selection). -/
def dfFilterEq (df : DataFrame) (col : List Cell) (v : Cell) : DataFrame :=
  ⟨df.columns, ((df.rows.zip col).filter (fun p => p.2 == v)).map (fun p => p.1)⟩

/-- Cast one cell to numpy int32 for `astype` (int32 width is irrelevant at
the claims' magnitudes); a non-numeric string raises ValueError. -/
def cellToInt : Cell → Except PyErr Cell
  | .int n => .ok (.int n)
  | .str s => (pyInt s).map .int
  | .nan => .error .valueError

/-- Cast one cell to str for `astype` (never fails). -/
def cellToStr : Cell → Cell
  | .str s => .str s
  | .int n => .str (toString n)
  | .nan => .str "nan"

/-- The store columns that `Segmentations._reinforce` casts to np.int32. -/
def intColumns : List String := ["START", "END", "DURATION"]

/-- Cast one row under the `astype` dict of `Segmentations._reinforce`. -/
def castRow (cols : List String) (r : List Cell) : Except PyErr (List Cell) :=
  (cols.zip r).mapM
    (fun p => if p.1 ∈ intColumns then cellToInt p.2 else .ok (cellToStr p.2))

/-- tiers.py, `Segmentations._reinforce`: `astype` with the dict over all six
store columns — KeyError when any of them is missing from the frame,
otherwise every cell cast to its declared column type. -/
def reinforce (df : DataFrame) : Except PyErr DataFrame :=
  if SEG_COLUMNS.all (fun c => df.columns.contains c) then
    (df.rows.mapM (castRow df.columns)).map (fun rs => ⟨df.columns, rs⟩)
  else
    .error .keyError

/-- Pairwise maximum of two cells under Python comparison: strings compare
lexicographically, ints numerically, and mixed kinds raise TypeError. -/
def cellMax : Cell → Cell → Except PyErr Cell
  | .str a, .str b => .ok (.str (if a < b then b else a))
  | .int a, .int b => .ok (.int (max a b))
  | _, _ => .error .typeError

/-- Series `.max()`: fold of `cellMax`; pandas yields NaN on an empty
series. -/
def seriesMax : List Cell → Except PyErr Cell
  | [] => .ok .nan
  | c :: rest => rest.foldlM cellMax c

/-- `pd.DataFrame(vals)` for a flat list of scalars builds a single column
of data, so pandas accepts a `columns` argument only when it names exactly
one column and raises ValueError on any other shape. -/
def pdFrameOfScalarList (vals : List Cell) (cols : List String) :
    Except PyErr DataFrame :=
  if cols.length = 1 then .ok ⟨cols, vals.map (fun v => [v])⟩
  else .error .valueError

/-- `pd.DataFrame({...})` from equal-length columns: the rows, by position;
ragged columns raise ValueError. -/
def colsToRows (cols : List (List Cell)) : Except PyErr (List (List Cell)) :=
  match cols with
  | [] => .ok []
  | c :: rest =>
      if rest.all (fun l => l.length = c.length) then .ok (List.transpose (c :: rest))
      else .error .valueError

-- ===================== Segmentations (tiers.py) =====================

/-- tiers.py, class Segmentations: the segment table plus the running id
counter `_ID` (an int class default, but the constructor overwrites it with
`segments.ID.max()`, which is a string for a populated store). -/
structure Segmentations where
  segments : DataFrame
  _ID : Cell
deriving DecidableEq, Repr

/-- The argument shapes `Segmentations.__init__(data)` distinguishes. -/
inductive SegInput where
  | dict (d : List (String × List Cell))
  | frame (df : DataFrame)
  | noneV
  | other
deriving Repr

/-- tiers.py, `Segmentations.__init__`, dict branch: builds the frame from
the six dict entries (KeyError when one is absent), `_reinforce`s the column
types, and sets `_ID = self.segments.ID.max()` — the plain maximum of the ID
column (lexicographic for the string ids), not the largest numeric suffix
plus one. -/
def Segmentations.ofDict (data : List (String × List Cell)) :
    Except PyErr Segmentations := do
  let tierCol ← dictGet data "TIER"
  let startCol ← dictGet data "START"
  let endCol ← dictGet data "END"
  let textCol ← dictGet data "TEXT"
  let idCol ← dictGet data "ID"
  let durCol ← dictGet data "DURATION"
  let rows ← colsToRows [tierCol, startCol, endCol, textCol, idCol, durCol]
  let segments ← reinforce ⟨SEG_COLUMNS, rows⟩
  let ids ← dfAttrColumn segments "ID"
  let mx ← seriesMax ids
  .ok ⟨segments, mx⟩

/-- tiers.py, `Segmentations.__init__`, DataFrame branch: deep copy with the
unrecognized columns dropped, then the same `_reinforce` / ID-max tail. -/
def Segmentations.ofFrame (df : DataFrame) : Except PyErr Segmentations := do
  let keep := df.columns.map (fun c => SEG_COLUMNS.contains c)
  let kept : DataFrame :=
    ⟨(df.columns.zip keep).filterMap (fun p => if p.2 then some p.1 else none),
     df.rows.map (fun r => ((r.zip keep).filterMap (fun p => if p.2 then some p.1 else none)))⟩
  let segments ← reinforce kept
  let ids ← dfAttrColumn segments "ID"
  let mx ← seriesMax ids
  .ok ⟨segments, mx⟩

/-- tiers.py, `Segmentations.__init__`: `data=None` reaches
`self.segments = pd.DataFrame.astype({...})`, which calls the instance
method on the class with the dtype dict in place of `self` and raises
TypeError; any other non-dict, non-DataFrame value skips both assignment
branches, so the following `self._reinforce()` finds no `self.segments`
attribute and raises AttributeError (the test suite expects TypeError
here, which the source also fails to satisfy). -/
def Segmentations.init : SegInput → Except PyErr Segmentations
  | .dict d => Segmentations.ofDict d
  | .frame df => Segmentations.ofFrame df
  | .noneV => .error .typeError
  | .other => .error .attributeError

/-- Models the call `Segmentations()` performed by `ELAN_Data.__init__`:
`Segmentations.__init__(self, data)` declares `data` with no default value,
so the zero-argument call raises TypeError before the constructor body
runs. -/
def segmentationsNoArg : Except PyErr Segmentations := .error .typeError

/-- Modelled from the spec: the empty Segmentations store that
`Segmentations()` is specified (and tested, tiers test
`test_constructor_default_params`) to produce — the six-column table with
no rows and the class-default running id 1.  The source's revision cannot
produce it (see `segmentationsNoArg`); document-level claims about states
after construction are settled over this intended empty store. -/
def Segmentations.emptyIntended : Segmentations :=
  ⟨⟨SEG_COLUMNS, []⟩, .int 1⟩

/-- tiers.py, list comprehension `[int(start - end) for start, end in
zip(starts, ends)]` of `Segmentations.from_file`: the recovered per-tier
durations, computed as start minus end. -/
def fromFileDurations (starts ends : List Int) : List Int :=
  (starts.zip ends).map (fun p => p.1 - p.2)

/-- One iteration of the from_file tier loop plus recursion on the
remaining TIER elements.  The accumulator dict was initialized with the
five keys TIER/START/END/TEXT/ID only, so the `data['DURATION'].extend`
step raises KeyError on the first tier processed. -/
def fromFileLoop (tree : XML) : List XML → List (String × List Cell) →
    Except PyErr (List (String × List Cell))
  | [], data => .ok data
  | e :: rest, data => do
      let tier ← pyAttrib e "TIER_ID"
      let aligns := findallAttrThenTag tree "TIER_ID" tier "ALIGNABLE_ANNOTATION"
      let data ← dictExtend data "TIER" (List.replicate aligns.length (.str tier))
      let ids ← aligns.mapM (fun a => pyAttrib a "ANNOTATION_ID")
      let data ← dictExtend data "ID" (ids.map Cell.str)
      let starts ← aligns.mapM (fun a => do
        let ref ← pyAttrib a "TIME_SLOT_REF1"
        match findAttrEq tree "TIME_SLOT_ID" ref with
        | none => throw PyErr.attributeError
        | some ts => do
            let v ← pyAttrib ts "TIME_VALUE"
            pyInt v)
      let data ← dictExtend data "START" (starts.map Cell.int)
      let ends ← aligns.mapM (fun a => do
        let ref ← pyAttrib a "TIME_SLOT_REF2"
        match findAttrEq tree "TIME_SLOT_ID" ref with
        | none => throw PyErr.attributeError
        | some ts => do
            let v ← pyAttrib ts "TIME_VALUE"
            pyInt v)
      let data ← dictExtend data "END" (ends.map Cell.int)
      let data ← dictExtend data "DURATION" ((fromFileDurations starts ends).map Cell.int)
      let texts ← aligns.mapM (fun a => do
        let aid ← pyAttrib a "ANNOTATION_ID"
        match findTierAnnChild tree tier aid "ANNOTATION_VALUE" with
        | none => throw PyErr.attributeError
        | some tn => pure (tn.textOf.getD ""))
      let data ← dictExtend data "TEXT" (texts.map Cell.str)
      fromFileLoop tree rest data

/-- tiers.py, `Segmentations.from_file`: recovers the segment table from a
parsed `.eaf` tree (opening and XML-parsing the file are modelled as the
given tree).  The accumulator dict starts with only the five keys
TIER/START/END/TEXT/ID, so recovery always raises KeyError — inside the
loop at `data['DURATION'].extend(...)` when the tree has a TIER element,
or otherwise in the constructor's `data['DURATION']` lookup. -/
def Segmentations.from_file (tree : XML) : Except PyErr Segmentations := do
  let data0 : List (String × List Cell) :=
    [("TIER", []), ("START", []), ("END", []), ("TEXT", []), ("ID", [])]
  let data ← fromFileLoop tree (findallTag tree "TIER") data0
  Segmentations.init (.dict data)

/-- tiers.py, `Segmentations.add_segment`: rejects `start < 0` or
`end <= start` with ValueError, stringifies start/end, then builds the
one-row frame `pd.DataFrame([tier, start, end, annotation, "a"+_ID],
columns=self.segments.columns)` — five scalars against the store's six
column labels, which raises the pandas shape ValueError; the concat and
the `_ID` increment that follow are never reached on a six-column store
(the increment itself would raise TypeError whenever `_ID` is the string
maximum installed by the constructor). -/
def Segmentations.add_segment (s : Segmentations) (tier : String)
    (start endv : Int) (text : String) : Except PyErr Segmentations :=
  if start < 0 ∨ endv ≤ start then .error .valueError
  else
    match pdFrameOfScalarList
        [.str tier, .str (toString start), .str (toString endv), .str text,
         .str ("a" ++ cellFormat s._ID)] s.segments.columns with
    | .error e => .error e
    | .ok newDf =>
        match (match s._ID with
               | .int n => Except.ok (Cell.int (n + 1))
               | _ => Except.error PyErr.typeError) with
        | .error e => .error e
        | .ok newId => .ok ⟨⟨s.segments.columns, s.segments.rows ++ newDf.rows⟩, newId⟩

/-- tiers.py, `Segmentations.remove_segment`: normalizes an integer id to
"a<n>", then filters on `self.segments.id` — but the store's column label
is `ID`, so the attribute access raises AttributeError on every call.  Were
the column found, the single-match branch would drop by
`...idxmax` (the bound method itself, never applied — `drop` raises a
KeyError for it) and every other match count, zero included, would raise
the bare Exception reserved for duplicated ids. -/
def Segmentations.remove_segment (s : Segmentations) (id : Cell) :
    Except PyErr Segmentations := do
  let form := match id with
    | .int n => "a" ++ toString n
    | c => cellFormat c
  let col ← dfAttrColumn s.segments "id"
  let query := dfFilterEq s.segments col (.str form)
  if query.rows ≠ [] ∧ query.rows.length = 1 then
    .error .keyError
  else
    .error .exception

/-- Values the store-level accessor can hand back: a (copied) one-or-more
row frame, or the `itertuples` iterator over such a frame. -/
inductive PyObj where
  | frame (df : DataFrame)
  | tuples (df : DataFrame)
deriving DecidableEq, Repr

/-- tiers.py, `Segmentations.get_segment`: normalizes an integer id to
"a<n>", filters on the ID column, returns None for no match; with
`deep=True` it returns the copied frame before the `named_tuple` flag is
ever consulted, and otherwise the frame or its `itertuples`. -/
def Segmentations.get_segment (s : Segmentations) (id : Cell)
    (deep named_tuple : Bool) : Except PyErr (Option PyObj) := do
  let form := match id with
    | .int n => "a" ++ toString n
    | c => cellFormat c
  let col ← dfAttrColumn s.segments "ID"
  let query := dfFilterEq s.segments col (.str form)
  if query.rows.length = 0 then pure none
  else if deep then pure (some (.frame query))
  else if named_tuple then pure (some (.tuples query))
  else pure (some (.frame query))

-- ===================== ELAN_Data._extract_tiers (__init__.py) =====================

/-- The four collections `ELAN_Data._extract_tiers` returns: tiers,
subtiers, tier types, and all tier names (`set(tier_names.keys())`,
modelled in insertion order). -/
structure ExtractResult where
  tiers : List Tier
  subtiers : List Subtier
  tier_types : List TierType
  names : List String
deriving DecidableEq, Repr

/-- The loop state of `_extract_tiers`'s first pass. -/
structure ExtractState where
  tier_list : List Tier
  tier_names : List (String × TierObj)
  tier_types : List TierType
  type_check : List (String × TierType)
  subtier_eles : List XML

/-- First pass of `ELAN_Data._extract_tiers` over the TIER elements.  A
type name with no LINGUISTIC_TYPE declaration raises ValueError; for a
declared one the pass builds the TierType and then executes
`tier_types.add(tier_type)`, which raises TypeError (TierType is an
unhashable dataclass), so the pass never survives its first declared-type
element.  The rest of the body is translated as written: the type-cache
guard (under which the whole construction sits, so a cached type name
would skip its element outright — unreachable, because the cache
assignment follows the failing add), the Tier construction with its
`tier_names` entry and `tier_list.add`, and the queueing of subtier
elements. -/
def extractPass1 (tree : XML) : List XML → ExtractState → Except PyErr ExtractState
  | [], st => .ok st
  | e :: rest, st => do
      let type_name ← pyAttrib e "LINGUISTIC_TYPE_REF"
      if (st.type_check.lookup type_name).isSome then
        extractPass1 tree rest st
      else
        match findAttrEq tree "LINGUISTIC_TYPE_ID" type_name with
        | none => .error .valueError
        | some tte => do
            let tier_type ← TierType.from_xml tte
            let tier_types' ← pySetAddUnhashable st.tier_types tier_type
            let st := { st with
              tier_types := tier_types',
              type_check := dictSet st.type_check type_name tier_type }
            if (e.attr "PARENT_REF").isNone then do
              let tier ← Tier.from_xml e tier_type
              let tid ← pyAttrib e "TIER_ID"
              let st := { st with tier_names := dictSet st.tier_names tid (.root tier) }
              let tier_list' ← pySetAddUnhashable st.tier_list tier
              extractPass1 tree rest { st with tier_list := tier_list' }
            else
              extractPass1 tree rest { st with subtier_eles := st.subtier_eles ++ [e] }

/-- Second pass of `ELAN_Data._extract_tiers` over the saved subtier
elements (only ever entered with an empty queue, since the first pass
raises before queueing anything): the cached-type and parent dict lookups
(a missing parent name would surface as the unhandled dict KeyError, not
the ValueError family the parser uses for format errors), the Subtier
construction, and `subtiers.add(subtier)` — which, like every set.add of
these dataclasses, raises TypeError. -/
def extractPass2 (type_check : List (String × TierType)) :
    List XML → List (String × TierObj) → List Subtier →
    Except PyErr (List (String × TierObj) × List Subtier)
  | [], tier_names, subtiers => .ok (tier_names, subtiers)
  | e :: rest, tier_names, subtiers => do
      let type_ref ← pyAttrib e "LINGUISTIC_TYPE_REF"
      let tier_type ← dictGet type_check type_ref
      let parent_ref ← pyAttrib e "PARENT_REF"
      let parent ← dictGet tier_names parent_ref
      let subtier ← Subtier.from_xml e tier_type parent
      let subtiers' ← pySetAddUnhashable subtiers subtier
      let tid ← pyAttrib e "TIER_ID"
      extractPass2 type_check rest (dictSet tier_names tid subtier.toObj) subtiers'


/-- __init__.py, `ELAN_Data._extract_tiers`: two-pass tier resolution over
all TIER elements of the tree, the name set being the keys of the
`tier_names` dict.  (The early return for an empty `subtier_eles` list is
behaviourally the empty second pass.)  Because both passes raise TypeError
at their set.add of an unhashable dataclass, extraction returns only for a
tree with no TIER elements; a declared-type track raises TypeError at
`tier_types.add`, and an undeclared type raises ValueError before any
add. -/
def extractTiers (tree : XML) : Except PyErr ExtractResult := do
  let st ← extractPass1 tree (findallTag tree "TIER") ⟨[], [], [], [], []⟩
  let (tier_names, subtiers) ← extractPass2 st.type_check st.subtier_eles st.tier_names []
  .ok ⟨st.tier_list, subtiers, st.tier_types, tier_names.map (fun p => p.1)⟩

-- ===================== ELAN_Data document state (__init__.py) =====================

/-- The `MINIMUM_ELAN` template of __init__.py, as the parsed tree the
constructor installs: header, empty time order, the default tier, the
default linguistic type, and the four constraint declarations. -/
def minimumElanTree : XML :=
  XML.elem "ANNOTATION_DOCUMENT"
    [("AUTHOR", ""), ("DATE", ""), ("FORMAT", "3.0"), ("VERSION", "3.0"),
     ("xmlns:xsi", "http://www.w3.org/2001/XMLSchema-instance"),
     ("xsi:noNamespaceSchemaLocation", "http://www.mpi.nl/tools/elan/EAFv3.0.xsd")]
    none
    [XML.elem "HEADER" [("MEDIA_FILE", ""), ("TIME_UNITS", "milliseconds")] none [],
     XML.elem "TIME_ORDER" [] none [],
     XML.elem "TIER" [("LINGUISTIC_TYPE_REF", "default-lt"), ("TIER_ID", "default")] none [],
     XML.elem "LINGUISTIC_TYPE"
       [("GRAPHIC_REFERENCES", "false"), ("LINGUISTIC_TYPE_ID", "default-lt"),
        ("TIME_ALIGNABLE", "true")] none [],
     XML.elem "CONSTRAINT"
       [("DESCRIPTION", "Time subdivision of parent annotation's time interval, no time gaps allowed within this interval"),
        ("STEREOTYPE", "Time_Subdivision")] none [],
     XML.elem "CONSTRAINT"
       [("DESCRIPTION", "Symbolic subdivision of a parent annotation. Annotations refering to the same parent are ordered"),
        ("STEREOTYPE", "Symbolic_Subdivision")] none [],
     XML.elem "CONSTRAINT"
       [("DESCRIPTION", "1-1 association with a parent annotation"),
        ("STEREOTYPE", "Symbolic_Association")] none [],
     XML.elem "CONSTRAINT"
       [("DESCRIPTION", "Time alignable annotations within the parent annotation's time interval, gaps are allowed"),
        ("STEREOTYPE", "Included_In")] none []]

/-- The in-memory state of an ELAN_Data document: file path, raw tree, the
tier/subtier/type collections, the name set, the audio reference, the
segmentation store and the modified flag. -/
structure DocState where
  file : String
  tree : XML
  tiers : List Tier
  subtiers : List Subtier
  tier_types : List TierType
  names : List String
  audio : Option String
  segmentations : Segmentations
  _modified : Bool

/-- The argument shapes `ELAN_Data.__init__(file)` distinguishes: a string,
a Path, or anything else. -/
inductive PyFile where
  | str (s : String)
  | path (p : String)
  | other
deriving Repr

/-- __init__.py, `ELAN_Data.__init__`: rejects the empty string with
ValueError and a non-str, non-Path argument with TypeError; parses
MINIMUM_ELAN and calls `_extract_tiers`, which raises TypeError at
`tier_types.add` on the skeleton's default type (unhashable dataclass) —
so the constructor never returns a document.  Were extraction to survive,
the subsequent `self.segmentations = Segmentations()` would raise
TypeError as well (see `segmentationsNoArg`); both failure points are kept
in the translation. -/
def ELAN_Data.init (file : PyFile) : Except PyErr DocState := do
  let f ← match file with
    | .str s => if s = "" then throw PyErr.valueError else pure s
    | .path p => pure p
    | .other => throw PyErr.typeError
  let tree := minimumElanTree
  let ex ← extractTiers tree
  let seg ← segmentationsNoArg
  pure { file := f, tree := tree, tiers := ex.tiers, subtiers := ex.subtiers,
         tier_types := ex.tier_types, names := ex.names, audio := none,
         segmentations := seg, _modified := false }

/-- Modelled from the spec: the skeleton document state that spec §4.5
`create(path)` prescribes — the file path, the MINIMUM_ELAN tree, one
default tier with its default linguistic type, the matching name set, no
audio, the empty store, and a clear modified flag.  The source cannot
produce any document state: its `_extract_tiers` raises TypeError at
`tier_types.add` and its `Segmentations()` call would raise too — both
embedded faithfully in `ELAN_Data.init` and reported under C7 — so the
class-method constructor bodies, which begin with `cls(file)`, are settled
over this intended receiver. -/
def ELAN_Data.initState (file : String) : Except PyErr DocState :=
  .ok { file := file, tree := minimumElanTree, tiers := [defaultTier "default"],
        subtiers := [], tier_types := [defaultTierType], names := ["default"],
        audio := none, segmentations := Segmentations.emptyIntended,
        _modified := false }

-- ===================== ELAN_Data mutators (__init__.py) =====================

/-- __init__.py, `ELAN_Data.add_tier`: no-op for None/empty or an existing
name; otherwise `self.names.add(tier)` succeeds (a set of strings) and the
following `self.tiers.add(Tier(name=tier))` raises TypeError — Tier is an
unhashable dataclass — so the method aborts with the name added, the Tier
object not added, and the modified flag untouched.  The result pairs the
mutated receiver with the raised exception, if any. -/
def DocState.add_tier (d : DocState) (tier : Option String) :
    DocState × Option PyErr :=
  match tier with
  | none => (d, none)
  | some t =>
      if t = "" ∨ t ∈ d.names then (d, none)
      else
        let d' := { d with names := setAdd d.names t }
        match pySetAddUnhashable d'.tiers (defaultTier t) with
        | .error e => (d', some e)
        | .ok ts => ({ d' with tiers := ts, _modified := true }, none)

/-- The per-name loop of `ELAN_Data.add_tiers`: each iteration runs
`self.names.add(tier)` (succeeds, a set of strings) and then
`self.tiers.add(Tier(name=tier))`, which raises TypeError on the
unhashable Tier, so the loop never passes its first element; the
`_modified = True` after the loop is never reached. -/
def addTiersLoop (d : DocState) : List String → DocState × Option PyErr
  | [] => ({ d with _modified := true }, none)
  | t :: rest =>
      let d' := { d with names := setAdd d.names t }
      match pySetAddUnhashable d'.tiers (defaultTier t) with
      | .error e => (d', some e)
      | .ok ts => addTiersLoop { d' with tiers := ts } rest

/-- __init__.py, `ELAN_Data.add_tiers`: returns early when the list is
empty or has no truthy element; otherwise runs the per-name loop, whose
first iteration adds the first name to the name set and then raises
TypeError (see `addTiersLoop`). -/
def DocState.add_tiers (d : DocState) (tiers : List String) :
    DocState × Option PyErr :=
  if tiers = [] ∨ tiers.all (fun t => t = "") then (d, none)
  else addTiersLoop d tiers

/-- __init__.py, `ELAN_Data.remove_tiers`: walks the requested names; for
a present name it removes it from the (string) name set, then scans the
tier set and — on the first object match — calls
`self.tiers.remove(tier)`, which hashes the unhashable Tier and raises
TypeError (likewise `self.subtiers.remove` for a subtier match), leaving
the name removed but the object behind; the `return` after a successful
removal would leave the whole method.  A name with no object match just
continues; the modified flag is never touched. -/
def DocState.remove_tiers (d : DocState) : List String → DocState × Option PyErr
  | [] => (d, none)
  | name :: rest =>
      if name ∈ d.names then
        let d' := { d with names := d.names.erase name }
        match d'.tiers.find? (fun t => t.name = name) with
        | some t =>
            match pySetRemoveUnhashable d'.tiers t with
            | .error e => (d', some e)
            | .ok ts => ({ d' with tiers := ts }, none)
        | none =>
            match d'.subtiers.find? (fun s => s.toTier.name = name) with
            | some sub =>
                match pySetRemoveUnhashable d'.subtiers sub with
                | .error e => (d', some e)
                | .ok ss => ({ d' with subtiers := ss }, none)
            | none => d'.remove_tiers rest
      else d.remove_tiers rest

/-- __init__.py, `ELAN_Data.add_audio`: no-op for None/empty; otherwise
stores the (environment-dependent absolute-path resolution is modelled as
the identity) path, then builds the MEDIA_DESCRIPTOR element and mutates
the HEADER child of the tree — returning without marking modified when the
existing descriptor already carries the same URL, and otherwise replacing
it, inserting the new descriptor first, and marking modified.  A tree
without HEADER fails the `assert`. -/
def DocState.add_audio (d : DocState) (audio : Option String) :
    Except PyErr DocState :=
  match audio with
  | none => .ok d
  | some a =>
      if a = "" then .ok d
      else
        let d := { d with audio := some a }
        let url := "file://" ++ a
        let aElem := XML.elem "MEDIA_DESCRIPTOR"
          [("MEDIA_URL", url), ("RELATIVE_MEDIA_URL", ""), ("MIME_TYPE", "audio/x-wav")]
          none []
        match findChildTag d.tree "HEADER" with
        | none => .error .assertionError
        | some header =>
            match findChildTag header "MEDIA_DESCRIPTOR" with
            | some old =>
                if old.attr "MEDIA_URL" == some url then .ok d
                else
                  let newHeader := XML.elem "HEADER" header.attrDict header.textOf
                    (aElem :: removeFirstTag header.children "MEDIA_DESCRIPTOR")
                  .ok { d with
                    tree := XML.elem d.tree.tagName d.tree.attrDict d.tree.textOf
                      (replaceFirstTag d.tree.children "HEADER" newHeader),
                    _modified := true }
            | none =>
                let newHeader := XML.elem "HEADER" header.attrDict header.textOf
                  (aElem :: header.children)
                .ok { d with
                  tree := XML.elem d.tree.tagName d.tree.attrDict d.tree.textOf
                    (replaceFirstTag d.tree.children "HEADER" newHeader),
                  _modified := true }

/-- The delegation step of `ELAN_Data.add_segment`: hand the validated
call to the store and mirror its outcome on the document. -/
def storeDelegate (d' : DocState) (tier : String) (start endv : Int)
    (text : String) : DocState × Option PyErr :=
  match d'.segmentations.add_segment tier start endv text with
  | .ok s => ({ d' with segmentations := s }, none)
  | .error e => (d', some e)

/-- __init__.py, `ELAN_Data.add_segment`: rejects an empty tier name and
`start < 0 or start > end` with ValueError (so the zero-length case
`start == end` passes this document-level check); a missing tier is then
auto-created via `add_tier`, which adds the name and raises TypeError at
its `tiers.add` (see `DocState.add_tier`), aborting before the store runs;
with the tier already present the store's own range check or frame
construction raises.  The result pairs the document state reached when the
call returns or raises (Python mutates the receiver in place) with the
raised exception, if any. -/
def DocState.add_segment (d : DocState) (tier : String) (start endv : Int)
    (text : String) : DocState × Option PyErr :=
  if tier = "" then (d, some .valueError)
  else if start < 0 ∨ start > endv then (d, some .valueError)
  else
    match (if tier ∈ d.names then (d, none) else d.add_tier (some tier)) with
    | (d', some e) => (d', some e)
    | (d', none) => storeDelegate d' tier start endv text

/-- __init__.py, `ELAN_Data.get_segment`: asks the store for the segment
with `deep=True, named_tuple=True` (the store's deep branch returns the
copied one-row DataFrame before consulting `named_tuple`), then evaluates
`row.TEXT if row else row` — for a found id, `if row` asks for the truth
value of a DataFrame, which pandas refuses with ValueError; only the
not-found path (None, falsy) returns. -/
def DocState.get_segment (d : DocState) (id : String) :
    Except PyErr (Option String) := do
  let row ← d.segmentations.get_segment (.str id) true true
  match row with
  | none => pure none
  | some (.frame df) => do
      let _ ← (Except.error PyErr.valueError : Except PyErr Bool)
      pure (some (cellFormat (((dfAttrColumn df "TEXT").toOption.getD []).headD (.str ""))))
  | some (.tuples _) => .error .typeError

-- ===================== ELAN_Data class-method constructors =====================

/-- One row of the tabular input of `ELAN_Data.from_dataframe` (the columns
its `itertuples` loop reads). -/
structure DfRow where
  TIER_ID : String
  START : Int
  STOP : Int
  TEXT : String
deriving DecidableEq, Repr

/-- The row loop of `ELAN_Data.from_dataframe`: collects the tier names and
adds each row as a segment; an exception from `add_segment` propagates out
of the constructor. -/
def fromDataframeLoop (d : DocState) (tier_names : List String) :
    List DfRow → Except PyErr (DocState × List String)
  | [] => .ok (d, tier_names)
  | r :: rest =>
      match d.add_segment r.TIER_ID r.START r.STOP r.TEXT with
      | (d', none) => fromDataframeLoop d' (setAdd tier_names r.TIER_ID) rest
      | (_, some e) => .error e

/-- __init__.py, `ELAN_Data.from_dataframe`: builds the skeleton document,
adds the audio, walks the rows adding tiers and segments (every row in
fact raises — a missing tier crashes the auto-create, a present one the
store), then runs `ed_obj.tiers.update([Tier(name=n) ...])` — a no-op for
the empty collected set, TypeError otherwise — and OVERWRITES `names` with
just the collected tier names (`ed_obj.names = tier_names`), dropping the
skeleton's "default" tier name while the default Tier object stays in
`tiers`.  The modified flag is reset as the final step. -/
def ELAN_Data.from_dataframe (rows : List DfRow) (file : String)
    (audio : Option String) : Except PyErr DocState :=
  (do
    let d ← ELAN_Data.initState file
    let d ← d.add_audio audio
    let (d, tier_names) ← fromDataframeLoop d [] rows
    let tiers' ← pySetUpdateUnhashable d.tiers (tier_names.map defaultTier)
    let d := { d with tiers := tiers' }
    pure { d with names := tier_names }
  ).map (fun d : DocState => { d with _modified := false })

/-- Raise out of a mutator that reports its exception in a pair,
discarding the partially mutated receiver the way an aborted classmethod
does. -/
def raiseIfErr (p : DocState × Option PyErr) : Except PyErr DocState :=
  match p with
  | (d, none) => .ok d
  | (_, some e) => .error e

/-- __init__.py, `ELAN_Data.create_eaf`: skeleton document, optional
removal of the default tier, `add_tiers` when the list is truthy (which
raises TypeError on any truthy list — see `addTiersLoop` — so only an
empty or all-falsy tier list survives), `add_audio` when the audio is
truthy, and the modified flag reset as the final step. -/
def ELAN_Data.create_eaf (file : String) (audio : Option String)
    (tiers : List String) (remove_default : Bool) : Except PyErr DocState :=
  (do
    let d ← ELAN_Data.initState file
    let d ← if remove_default then raiseIfErr (d.remove_tiers ["default"]) else pure d
    let d ← if tiers ≠ [] then raiseIfErr (d.add_tiers tiers) else pure d
    let d ← match audio with
      | some a => if a ≠ "" then d.add_audio (some a) else pure d
      | none => pure d
    pure d
  ).map (fun d : DocState => { d with _modified := false })

-- ===================== Serialization (spec §4.5 save) =====================

/-- Deduplicate keeping first occurrences (deterministic anchor
allocation). -/
def dedupFirstAux (seen : List Cell) : List Cell → List Cell
  | [] => []
  | c :: rest =>
      if c ∈ seen then dedupFirstAux seen rest
      else c :: dedupFirstAux (c :: seen) rest

/-- Cell of a store row under a column label (rows are aligned with the
frame's columns). -/
def rowCell (cols : List String) (r : List Cell) (c : String) : Cell :=
  match cols.findIdx? (fun x => x == c) with
  | some i => r.getD i (.str "")
  | none => .str ""

/-- The deduplicated anchor values of a store, each row contributing its
START then its END, in row order. -/
def anchorValues (cols : List String) (rows : List (List Cell)) : List Cell :=
  dedupFirstAux [] (rows.map (fun r => [rowCell cols r "START", rowCell cols r "END"])).flatten

/-- Deterministic anchor id for a value: ts<position in the anchor list,
1-based>. -/
def anchorId (anchors : List Cell) (v : Cell) : String :=
  "ts" ++ toString ((anchors.findIdx? (fun x => x == v)).getD 0 + 1)

/-- The serialized annotation element of one store row. -/
def annElem (cols : List String) (anchors : List Cell) (r : List Cell) : XML :=
  XML.elem "ANNOTATION" [] none
    [XML.elem "ALIGNABLE_ANNOTATION"
      [("ANNOTATION_ID", cellFormat (rowCell cols r "ID")),
       ("TIME_SLOT_REF1", anchorId anchors (rowCell cols r "START")),
       ("TIME_SLOT_REF2", anchorId anchors (rowCell cols r "END"))]
      none
      [XML.elem "ANNOTATION_VALUE" [] (some (cellFormat (rowCell cols r "TEXT"))) []]]

/-- An element with extra children appended. -/
def withChildren (e : XML) (cs : List XML) : XML :=
  XML.elem e.tagName e.attrDict e.textOf (e.children ++ cs)

/-- Modelled from the spec: `ELAN_Data.save_ELAN` is commented out in this
revision (__init__.py lines 988-1036 — the disabled body only pretty-prints
and writes the raw tree), so serialization is reconstructed from spec §4.5:
re-emit the TierType/Tier/Subtier elements through their source `as_xml`
projections, re-synthesize the time-anchor table from the store's literal
start/end values with deterministic, deduplicated anchor ids, place each
row's annotation element under its tier's element, and emit the media
descriptor for the audio reference.  (Pretty-printing whitespace is not
modelled; it does not affect the parsed model.) -/
def ELAN_Data.serialize (d : DocState) : XML :=
  let cols := d.segmentations.segments.columns
  let rows := d.segmentations.segments.rows
  let anchors := anchorValues cols rows
  let timeSlots := anchors.enum.map (fun p =>
    XML.elem "TIME_SLOT"
      [("TIME_SLOT_ID", "ts" ++ toString (p.1 + 1)), ("TIME_VALUE", cellFormat p.2)]
      none [])
  let annFor := fun (tname : String) =>
    (rows.filter (fun r => rowCell cols r "TIER" == .str tname)).map
      (annElem cols anchors)
  let tierElems :=
    d.tiers.map (fun t => withChildren t.as_xml (annFor t.name)) ++
    d.subtiers.map (fun s => withChildren s.as_xml (annFor s.toTier.name))
  let media := match d.audio with
    | some a => [XML.elem "MEDIA_DESCRIPTOR"
        [("MEDIA_URL", "file://" ++ a), ("MIME_TYPE", "audio/x-wav")] none []]
    | none => []
  XML.elem "ANNOTATION_DOCUMENT"
    [("AUTHOR", ""), ("DATE", ""), ("FORMAT", "3.0"), ("VERSION", "3.0")] none
    ([XML.elem "HEADER" [("MEDIA_FILE", ""), ("TIME_UNITS", "milliseconds")] none media,
      XML.elem "TIME_ORDER" [] none timeSlots] ++
     tierElems ++ d.tier_types.map TierType.as_xml)

-- ===================== Concrete fixtures =====================

/-- A LINGUISTIC_TYPE declaration element without constraints. -/
def ltElem (n : String) : XML :=
  XML.elem "LINGUISTIC_TYPE"
    [("GRAPHIC_REFERENCES", "false"), ("LINGUISTIC_TYPE_ID", n),
     ("TIME_ALIGNABLE", "true")] none []

/-- A TIER declaration element, optionally carrying a parent reference. -/
def tierElem (idv ref : String) (par : Option String) : XML :=
  XML.elem "TIER"
    ([("LINGUISTIC_TYPE_REF", ref), ("TIER_ID", idv)] ++
      (match par with | some p => [("PARENT_REF", p)] | none => []))
    none []

/-- Tracks "default" and "child", the child referencing parent "default",
both declaring the SAME linguistic type default-lt (the usual layout of an
`.eaf` file with one type). -/
def treeSharedType : XML :=
  XML.elem "ANNOTATION_DOCUMENT" [] none
    [ltElem "default-lt",
     tierElem "default" "default-lt" none,
     tierElem "child" "default-lt" (some "default")]

/-- Tracks "default" and "child" with two distinct declared types, the
child referencing parent "default". -/
def treeDistinctTypes : XML :=
  XML.elem "ANNOTATION_DOCUMENT" [] none
    [ltElem "default-lt", ltElem "child-lt",
     tierElem "default" "default-lt" none,
     tierElem "child" "child-lt" (some "default")]

/-- Tracks "default" and "child" with two distinct declared types, the
child referencing the parent name "nope", which no track declares. -/
def treeMissingParent : XML :=
  XML.elem "ANNOTATION_DOCUMENT" [] none
    [ltElem "default-lt", ltElem "child-lt",
     tierElem "default" "default-lt" none,
     tierElem "child" "child-lt" (some "nope")]

/-- A track declaring the type name "ghost" with no matching
LINGUISTIC_TYPE declaration. -/
def treeUnknownType : XML :=
  XML.elem "ANNOTATION_DOCUMENT" [] none [tierElem "default" "ghost" none]

/-- A time slot element. -/
def timeSlotElem (idv : String) (v : Int) : XML :=
  XML.elem "TIME_SLOT" [("TIME_SLOT_ID", idv), ("TIME_VALUE", toString v)] none []

/-- A tree holding one tier T with one annotation a1 spanning anchors
ts1 = 0 ms to ts2 = 100 ms with text "hi". -/
def treeWithSegment : XML :=
  XML.elem "ANNOTATION_DOCUMENT" [] none
    [ltElem "default-lt",
     XML.elem "TIME_ORDER" [] none [timeSlotElem "ts1" 0, timeSlotElem "ts2" 100],
     XML.elem "TIER" [("LINGUISTIC_TYPE_REF", "default-lt"), ("TIER_ID", "T")] none
       [XML.elem "ANNOTATION" [] none
         [XML.elem "ALIGNABLE_ANNOTATION"
           [("ANNOTATION_ID", "a1"), ("TIME_SLOT_REF1", "ts1"), ("TIME_SLOT_REF2", "ts2")]
           none
           [XML.elem "ANNOTATION_VALUE" [] (some "hi") []]]]]

/-- Column-oriented constructor data for a store holding the single
segment ("default", 0, 100, "x", "a1", 100). -/
def sampleDict : List (String × List Cell) :=
  [("TIER", [.str "default"]), ("START", [.int 0]), ("END", [.int 100]),
   ("TEXT", [.str "x"]), ("ID", [.str "a1"]), ("DURATION", [.int 100])]

/-- The store state `Segmentations(data=sampleDict)` produces: the one-row
table, and `_ID` left as the string maximum "a1" of the ID column. -/
def sampleStore : Segmentations :=
  ⟨⟨SEG_COLUMNS, [[.str "default", .int 0, .int 100, .str "x", .str "a1", .int 100]]⟩,
   .str "a1"⟩

lemma sampleStore_eq : Segmentations.init (.dict sampleDict) = .ok sampleStore := rfl

/-- The skeleton document state (used as a concrete receiver in
witnesses): exactly what `ELAN_Data.initState` computes for "w.eaf". -/
def skeletonDoc : DocState :=
  { file := "w.eaf", tree := minimumElanTree,
    tiers := [defaultTier "default"], subtiers := [],
    tier_types := [defaultTierType], names := ["default"], audio := none,
    segmentations := Segmentations.emptyIntended, _modified := false }

lemma skeletonDoc_eq : ELAN_Data.initState "w.eaf" = .ok skeletonDoc := rfl

/-- A document state holding two default-typed tiers, exercising the
round trip. -/
def docTwoTiers : DocState :=
  { skeletonDoc with
    tiers := [defaultTier "default", defaultTier "extra"],
    names := ["default", "extra"] }

/-- Resetting the modified flag as the final step makes the flag of any
returned document False, whatever the earlier steps did. -/
lemma mapResetModified (e : Except PyErr DocState) :
    ((e.map (fun d : DocState => { d with _modified := false })).map DocState._modified)
      = ((e.map (fun d : DocState => { d with _modified := false })).map (fun _ => false)) := by
  cases e <;> rfl

-- ===================== Claim theorems =====================

/-- C1: the round-trip law fails on this revision.  Re-parsing the
serialized output (spec-modelled `ELAN_Data.serialize`, re-emitting
through the source `as_xml` projections) of a document with tiers raises
TypeError in the source `_extract_tiers` — `tier_types.add(tier_type)`
hashes an unhashable dataclass on the first track — and re-reading the
segments with the source `Segmentations.from_file` raises KeyError before
recovering any row, so parse(serialize(D)) reproduces neither the tier set
nor the segment rows of any non-trivial document. -/
theorem C1_roundtrip_broken :
    docTwoTiers.tiers.map Tier.name = ["default", "extra"]
    ∧ extractTiers (ELAN_Data.serialize docTwoTiers) = .error .typeError
    ∧ Segmentations.from_file
        (ELAN_Data.serialize { docTwoTiers with segmentations := sampleStore })
      = .error .keyError :=
  ⟨rfl, rfl, rfl⟩

/-- C2: parsing never yields the claimed structure in this revision.  On
every two-track fixture — child with its own declared type, child sharing
the parent's single declared type, and child referencing a missing
parent — the first pass raises TypeError at `tier_types.add(tier_type)`
on the FIRST declared-type track (TierType is an eq=True, frozen=False
dataclass and therefore unhashable), so neither the claimed one root Tier
plus one Subtier with parent.name "default" nor the claimed FormatError
for a missing parent is reachable.  Only the undeclared-type check still
fires, before any set.add (ValueError, last conjunct). -/
theorem C2_two_pass_parse :
    extractTiers treeDistinctTypes = .error .typeError
    ∧ extractTiers treeSharedType = .error .typeError
    ∧ extractTiers treeMissingParent = .error .typeError
    ∧ extractTiers treeUnknownType = .error .valueError :=
  ⟨rfl, rfl, rfl, rfl⟩

/-- C3: `Segmentations.from_file` never recovers a segment with
`duration == end - start`: on a tree with one annotation from 0 ms to
100 ms it raises KeyError (the accumulator dict has no DURATION key to
extend), and the duration expression it would have stored is
`start - end`, i.e. -100 rather than the claimed 100. -/
theorem C3_from_file_duration :
    Segmentations.from_file treeWithSegment = .error .keyError
    ∧ fromFileDurations [0] [100] = [-100] :=
  ⟨rfl, rfl⟩

/-- C4: on a store recovered from data with the single id "a1", the
constructor leaves the running counter as the string maximum "a1" of the
ID column (not max numeric suffix + 1 = 2), and `add_segment` on a valid
range (200, 300) raises the pandas shape ValueError (five scalars against
six column labels) instead of appending one segment with duration 100 and
a fresh id. -/
theorem C4_add_segment_store :
    (Segmentations.init (.dict sampleDict)).map (fun s =>
        (s._ID, s.add_segment "default" 200 300 "y"))
      = .ok (.str "a1", .error .valueError) :=
  rfl

/-- C5 counterexample: `add_segment("T", 5, 5, "x")` on the skeleton
document neither fails with InvalidArgument nor leaves the collections
untouched: the zero-length interval passes the document-level check
`start < 0 or start > end`, the auto-create of the missing tier adds "T"
to the name set and then crashes with TypeError at
`self.tiers.add(Tier(name="T"))` (unhashable dataclass) — so the call
raises TypeError, with the name collection grown and the Tier object never
added. -/
theorem C5_zero_length_creates_tier :
    (ELAN_Data.initState "c5.eaf").map (fun d =>
        ((d.add_segment "T" 5 5 "x").2,
         (d.add_segment "T" 5 5 "x").1.names.contains "T",
         (d.add_segment "T" 5 5 "x").1.tiers.map Tier.name,
         d.names.contains "T"))
      = .ok (some .typeError, true, ["default"], false) :=
  rfl

/-- C5 amended: for every document state and all (start, end) with
start < 0 or end ≤ start, `ELAN_Data.add_segment` always fails — with
ValueError or with TypeError; when start < 0 or end < start the
document-level range check fires before tier auto-creation, the failure is
ValueError and the document is exactly as before; in the zero-length case
end == start the document-level check passes, and the failure is the
store's ValueError whenever the tier name is empty or already present —
but for a missing tier the auto-create itself crashes with TypeError after
adding the name (see the counterexample), so the failure is then not
InvalidArgument and the name collection may grow. -/
theorem C5_invalid_range_rejected (d : DocState) (tier text : String)
    (start endv : Int) (h : start < 0 ∨ endv ≤ start) :
    ((d.add_segment tier start endv text).2 = some PyErr.valueError
      ∨ (d.add_segment tier start endv text).2 = some PyErr.typeError)
    ∧ (start < 0 ∨ endv < start →
        d.add_segment tier start endv text = (d, some PyErr.valueError))
    ∧ (tier = "" ∨ tier ∈ d.names →
        (d.add_segment tier start endv text).2 = some PyErr.valueError) := by
  unfold DocState.add_segment
  by_cases ht : tier = ""
  · rw [if_pos ht]
    exact ⟨Or.inl rfl, fun _ => rfl, fun _ => rfl⟩
  · rw [if_neg ht]
    by_cases h1 : start < 0 ∨ start > endv
    · rw [if_pos h1]
      exact ⟨Or.inl rfl, fun _ => rfl, fun _ => rfl⟩
    · rw [if_neg h1]
      push_neg at h1
      obtain ⟨ha, hb⟩ := h1
      have h2 : endv ≤ start := by
        rcases h with h | h
        · exact absurd h (not_lt.mpr ha)
        · exact h
      have hdel : ∀ dd : DocState,
          storeDelegate dd tier start endv text = (dd, some PyErr.valueError) := by
        intro dd
        unfold storeDelegate Segmentations.add_segment
        rw [if_pos (Or.inr h2)]
      by_cases hm : tier ∈ d.names
      · rw [if_pos hm]
        refine ⟨Or.inl ?_, fun _ => ?_, fun _ => ?_⟩
        · show (storeDelegate d tier start endv text).2 = some PyErr.valueError
          rw [hdel d]
        · show storeDelegate d tier start endv text = (d, some PyErr.valueError)
          exact hdel d
        · show (storeDelegate d tier start endv text).2 = some PyErr.valueError
          rw [hdel d]
      · rw [if_neg hm]
        have hat : d.add_tier (some tier) =
            ({ d with names := setAdd d.names tier }, some PyErr.typeError) := by
          simp only [DocState.add_tier]
          rw [if_neg (fun hor => hor.elim ht hm)]
          rfl
        rw [hat]
        refine ⟨Or.inr rfl, fun hc => ?_, fun hmem => ?_⟩
        · exfalso
          rcases hc with hc | hc <;> omega
        · exact absurd hmem (fun hor => hor.elim ht hm)

/-- C5 witness: the amended theorem applied to the skeleton document at
the spec's boundary input (-1, 10): the call fails, with -1 < 0 it fails
as ValueError leaving the document unchanged, and the present-tier
implication is instantiated. -/
theorem C5_invalid_range_rejected_witness :
    ((skeletonDoc.add_segment "T" (-1) 10 "x").2 = some PyErr.valueError
      ∨ (skeletonDoc.add_segment "T" (-1) 10 "x").2 = some PyErr.typeError)
    ∧ ((-1 : Int) < 0 ∨ (10 : Int) < (-1 : Int) →
        skeletonDoc.add_segment "T" (-1) 10 "x" = (skeletonDoc, some PyErr.valueError))
    ∧ ("T" = "" ∨ "T" ∈ skeletonDoc.names →
        (skeletonDoc.add_segment "T" (-1) 10 "x").2 = some PyErr.valueError) :=
  C5_invalid_range_rejected skeletonDoc "T" "x" (-1) 10 (Or.inl (by decide))

/-- C6: the names invariant breaks at the from_dataframe observation
point: the only tabular input for which the constructor returns at all
(the empty table — every row raises before completing, a missing tier
crashing the auto-create with TypeError and a present one hitting the
store's frame-shape ValueError) yields a document whose names set is empty
while the tier collection still holds the skeleton's "default" Tier,
because the method ends with `ed_obj.names = tier_names`. -/
theorem C6_names_union_broken :
    (ELAN_Data.from_dataframe [] "c6.eaf" none).map (fun d =>
        (d.names, d.tiers.map Tier.name ++ d.subtiers.map (fun s => s.toTier.name)))
      = .ok ([], ["default"]) :=
  rfl

/-- C7: document creation never succeeds in this revision: for the
well-formed path "test.eaf" the constructor raises TypeError — inside
`_extract_tiers`, at the `tier_types.add` of the skeleton's default type
(unhashable dataclass); the later `self.segmentations = Segmentations()`
call, which lacks its required data argument, would raise TypeError as
well — while the claimed failure cases do hold: ValueError for the empty
string and TypeError for a non-path, non-string argument. -/
theorem C7_create_never_succeeds :
    ELAN_Data.init (.str "test.eaf") = .error .typeError
    ∧ ELAN_Data.init (.str "") = .error .valueError
    ∧ ELAN_Data.init .other = .error .typeError :=
  ⟨rfl, rfl, rfl⟩

/-- C8: `remove_segment` raises AttributeError on every call — with
exactly one matching row and with none — because it filters on the
attribute `id` while the store's column label is `ID`; no silent removal
or no-op path is reachable. -/
theorem C8_remove_segment_raises :
    (Segmentations.init (.dict sampleDict)).map (fun s =>
        (s.remove_segment (.str "a1"), s.remove_segment (.str "a404")))
      = .ok (.error .attributeError, .error .attributeError) :=
  rfl

/-- C9: document-level getSegment raises whenever the id exists: the store
hands back a one-row DataFrame (deep=True wins over named_tuple) and
`row.TEXT if row else row` asks for that frame's truth value, which pandas
refuses with ValueError; an absent id does return the explicit empty
result, and the store-level lookup itself (with the integer id 1
normalized to "a1") returns the row without raising. -/
theorem C9_get_segment_raises :
    (ELAN_Data.initState "c9.eaf").map (fun d =>
        (DocState.get_segment { d with segmentations := sampleStore } "a1",
         DocState.get_segment { d with segmentations := sampleStore } "a404",
         sampleStore.get_segment (.int 1) true false))
      = .ok (.error .valueError, .ok none, .ok (some (.frame sampleStore.segments))) :=
  rfl

/-- C10: whenever from_dataframe or create_eaf returns a document, its
modified flag is False — both class methods reset `_modified` as their
final step; the third and fourth conjuncts give concrete inputs on which
each constructor does return (create_eaf with an empty tier list and an
audio path; from_dataframe on the empty table), and the last conjunct
shows the model keeps the faithful error path: a non-empty tier list makes
create_eaf raise TypeError inside `add_tiers` (unhashable Tier set.add).
Reaching the constructors at all requires the intended receiver state of
`ELAN_Data.initState` (see C7). -/
theorem C10_constructors_reset_modified :
    (∀ rows file audio,
        (ELAN_Data.from_dataframe rows file audio).map DocState._modified
          = (ELAN_Data.from_dataframe rows file audio).map (fun _ => false))
    ∧ (∀ file audio tiers rd,
        (ELAN_Data.create_eaf file audio tiers rd).map DocState._modified
          = (ELAN_Data.create_eaf file audio tiers rd).map (fun _ => false))
    ∧ (ELAN_Data.create_eaf "c10.eaf" (some "a.wav") [] false).map
        DocState._modified = .ok false
    ∧ (ELAN_Data.from_dataframe [] "c10b.eaf" none).map DocState._modified
        = .ok false
    ∧ ELAN_Data.create_eaf "c10c.eaf" none ["A"] false = .error .typeError := by
  refine ⟨?_, ?_, rfl, rfl, rfl⟩
  · intro rows file audio
    unfold ELAN_Data.from_dataframe
    exact mapResetModified _
  · intro file audio tiers rd
    unfold ELAN_Data.create_eaf
    exact mapResetModified _
